import Mathlib

/-!
Verification of `src/stdlib/public/runtime/playAudio.cpp`.

The single exported function `playAudio` is embedded as a pure Lean
function.  External effects (filesystem query, `dlopen`, `dlsym`,
`dlclose`, the backing call, and lines written to standard output) are
recorded in a trace of `Event`s, and the outcomes of the external calls
are supplied by an oracle environment `Env`:

  - `Env.fsExists`  answers `std::filesystem::exists` for a path;
  - `Env.dlopenOk`  says whether `dlopen` of a library path succeeds;
  - `Env.dlsymOk`   says whether `dlsym` on that library resolves a symbol;
  - `Env.dlerrOpen` / `Env.dlerrSym` are the `dlerror()` descriptions
    reported after a failed `dlopen` / `dlsym`.

The trace keeps the order of the effects as the source performs them, so
temporal claims (output ordering, call-before-release) are statements
about the order of events in the list.
-/

/-- Symbol binding mode passed to `dlopen`; the source passes `RTLD_LAZY`. -/
inductive BindingMode where
  | lazy
  | now
  deriving DecidableEq, Repr

/-- One observable effect of an invocation, in program order:
a line written to standard output, a call to `dlopen` (library path and
binding mode), a call to `dlsym` (symbol name), a call through the
resolved function pointer (its path argument), or a call to `dlclose`
releasing the single handle of the invocation. -/
inductive Event where
  | out (line : String)
  | dlopenE (path : String) (mode : BindingMode)
  | dlsymE (symbol : String)
  | callE (path : String)
  | dlcloseE
  deriving DecidableEq, Repr

/-- Oracle for the host environment: filesystem and runtime loader. -/
structure Env where
  fsExists : String → Bool
  dlopenOk : String → Bool
  dlsymOk : String → String → Bool
  dlerrOpen : String
  dlerrSym : String

/-- The hard-coded absolute path of the backing shared library, exactly as
it appears in the `dlopen` call of the source. -/
def OSPortPath : String :=
  "/Users/Salman/Projects/Prototypes/FastZip/Assets/OSPort.dylib"

/-- Trace semantics of `playAudio(const char* filePath)` for a non-null
input, line by line from the source: print the attempt line; test
`std::filesystem::exists`; on failure print `File does not exist` and
return; on success print `File exists`, `dlopen` the hard-coded library
path with `RTLD_LAZY`, on failure print the loader diagnostic and return;
otherwise `dlsym` the symbol `av_playAudio`, on failure print the loader
diagnostic, `dlclose` the handle and return; otherwise call the resolved
function with `filePath` and then `dlclose` the handle. -/
def playAudio (env : Env) (filePath : String) : List Event :=
  Event.out ("Attempting to play: " ++ filePath) ::
  (if env.fsExists filePath then
    Event.out "File exists" ::
    Event.dlopenE OSPortPath BindingMode.lazy ::
    (if env.dlopenOk OSPortPath then
      Event.dlsymE "av_playAudio" ::
      (if env.dlsymOk OSPortPath "av_playAudio" then
        [Event.callE filePath, Event.dlcloseE]
      else
        [Event.out ("Unable to find symbol: " ++ env.dlerrSym),
         Event.dlcloseE])
    else
      [Event.out ("Unable to load dylib: " ++ env.dlerrOpen)])
  else
    [Event.out "File does not exist"])

/-- The raw C entry point takes a possibly-null `const char*` (`none`
models a null pointer).  The source dereferences `filePath` with no null
test — it is streamed to standard output and handed to the
`std::filesystem::path` constructor on the very first lines — so a null
input has no defined behaviour (`none`); a non-null input behaves as
`playAudio`. -/
def playAudioRaw (env : Env) (filePath : Option String) :
    Option (List Event) :=
  match filePath with
  | none => none
  | some p => some (playAudio env p)

/-- The lines written to standard output, in order. -/
def outLines (t : List Event) : List String :=
  t.filterMap (fun e => match e with
    | Event.out s => some s
    | _ => none)

/-- The arguments of the `dlopen` calls, in order. -/
def dlopenArgs (t : List Event) : List (String × BindingMode) :=
  t.filterMap (fun e => match e with
    | Event.dlopenE p m => some (p, m)
    | _ => none)

/-- The symbol names passed to `dlsym`, in order. -/
def dlsymArgs (t : List Event) : List String :=
  t.filterMap (fun e => match e with
    | Event.dlsymE s => some s
    | _ => none)

/-- The path arguments of the calls through the resolved pointer. -/
def callArgs (t : List Event) : List String :=
  t.filterMap (fun e => match e with
    | Event.callE p => some p
    | _ => none)

/-- How many times the handle is released. -/
def releaseCount (t : List Event) : Nat :=
  t.countP (fun e => match e with
    | Event.dlcloseE => true
    | _ => false)

/-- `true` when no call through the resolved pointer occurs in the trace. -/
def noCall (t : List Event) : Bool :=
  t.all (fun e => match e with
    | Event.callE _ => false
    | _ => true)

/-- `true` when every call through the resolved pointer happens strictly
before every release of the handle: after any `dlcloseE`, no `callE`
event follows. -/
def callsBeforeRelease : List Event → Bool
  | [] => true
  | Event.dlcloseE :: rest => noCall rest && callsBeforeRelease rest
  | _ :: rest => callsBeforeRelease rest

/-- Two strings whose character lists start differently are different. -/
theorem string_ne_of_head (a b : String) (h : a.data.head? ≠ b.data.head?) :
    a ≠ b :=
  fun e => h (by rw [e])

/-- The head character of an appended string is that of its first part
when the first part is non-empty. -/
theorem head_append (a b : String) (c : Char) (h : a.data.head? = some c) :
    (a ++ b).data.head? = some c := by
  rw [String.data_append]
  cases hd : a.data with
  | nil => rw [hd] at h; cases h
  | cons x xs => rw [hd] at h; simpa using h

/-- All-success oracle: every path exists, the library loads, the symbol
resolves. -/
def envAll : Env :=
  { fsExists := fun _ => true
    dlopenOk := fun _ => true
    dlsymOk := fun _ _ => true
    dlerrOpen := "open error"
    dlerrSym := "symbol error" }

/-- Oracle in which no filesystem path exists. -/
def envNoFile : Env := { envAll with fsExists := fun _ => false }

/-- Oracle in which the backing library fails to load. -/
def envNoLib : Env := { envAll with dlopenOk := fun _ => false }

/-- Oracle in which the symbol fails to resolve. -/
def envNoSym : Env := { envAll with dlsymOk := fun _ _ => false }

/-- Outcome of the underlying filesystem status query made by
`std::filesystem::exists(file)` at line 10 of the source: the entry is
found, the entry is not found, or the query itself fails (for example a
permission error such as `EACCES` on a path prefix, or `ELOOP`).  The
one-argument `exists` overload used by the source is the throwing one: on
the failing outcome it throws `std::filesystem::filesystem_error` carrying
the error description. -/
inductive FsOutcome where
  | found
  | missing
  | errored (msg : String)
  deriving DecidableEq, Repr

/-- A C++ exception escaping `playAudio`. -/
inductive CppException where
  | filesystemError (msg : String)
  deriving DecidableEq, Repr

/-- Error-aware oracle: like `Env`, but the filesystem query may fail
instead of returning a boolean. -/
structure EnvEx where
  fsQuery : String → FsOutcome
  dlopenOk : String → Bool
  dlsymOk : String → String → Bool
  dlerrOpen : String
  dlerrSym : String

/-- The boolean view of an error-aware oracle, used on the outcomes where
the filesystem query returns normally. -/
def toBoolEnv (env : EnvEx) : Env :=
  { fsExists := fun p => env.fsQuery p == FsOutcome.found
    dlopenOk := env.dlopenOk
    dlsymOk := env.dlsymOk
    dlerrOpen := env.dlerrOpen
    dlerrSym := env.dlerrSym }

/-- Result of one invocation under the error-aware oracle: the events
emitted, and the exception that escaped the function, if any (`none` means
the invocation returned normally). -/
structure RunResult where
  events : List Event
  thrown : Option CppException
  deriving DecidableEq, Repr

/-- Exception-aware semantics of the source.  The attempt line is printed
first (line 7); then `std::filesystem::exists(file)` runs (line 10).  That
call is the throwing overload: when the underlying status query fails with
an error other than not-found, it throws
`std::filesystem::filesystem_error`, and `playAudio` contains no handler,
so the exception escapes the function with no further event.  When the
query returns normally, the invocation proceeds exactly as `playAudio`
under the boolean view of the oracle. -/
def playAudioEx (env : EnvEx) (filePath : String) : RunResult :=
  match env.fsQuery filePath with
  | FsOutcome.errored msg =>
      { events := [Event.out ("Attempting to play: " ++ filePath)]
        thrown := some (CppException.filesystemError msg) }
  | _ =>
      { events := playAudio (toBoolEnv env) filePath
        thrown := none }

/-- Oracle in which the filesystem status query fails with a permission
error for every path, as when a path prefix denies search permission. -/
def envFsError : EnvEx :=
  { fsQuery := fun _ => FsOutcome.errored "permission denied"
    dlopenOk := fun _ => true
    dlsymOk := fun _ _ => true
    dlerrOpen := "open error"
    dlerrSym := "symbol error" }

/-- Claim C1: whenever the library handle is successfully acquired
(the path exists and `dlopen` succeeds), the invocation releases the
handle exactly once before returning, on both remaining exit paths
(symbol-resolution failure and successful invocation). -/
theorem playAudio_releases_handle_once (env : Env) (p : String)
    (hfs : env.fsExists p = true) (hop : env.dlopenOk OSPortPath = true) :
    releaseCount (playAudio env p) = 1 := by
  cases hsym : env.dlsymOk OSPortPath "av_playAudio" <;>
    simp [playAudio, releaseCount, hfs, hop, hsym]

/-- Witness for C1 at a concrete environment and path. -/
theorem playAudio_releases_handle_once_witness :
    envNoSym.fsExists "/tmp/sample.wav" = true ∧
    envNoSym.dlopenOk OSPortPath = true ∧
    releaseCount (playAudio envNoSym "/tmp/sample.wav") = 1 :=
  ⟨rfl, rfl, playAudio_releases_handle_once envNoSym "/tmp/sample.wav" rfl rfl⟩

/-- Claim C2: on the success path (path exists, library loads, symbol
resolves), the backing function is called exactly once, and its path
argument is byte-equal to the input path: the list of call arguments is
exactly `[p]`. -/
theorem playAudio_calls_backing_once (env : Env) (p : String)
    (hfs : env.fsExists p = true) (hop : env.dlopenOk OSPortPath = true)
    (hsym : env.dlsymOk OSPortPath "av_playAudio" = true) :
    callArgs (playAudio env p) = [p] := by
  simp [playAudio, callArgs, hfs, hop, hsym]

/-- Witness for C2 at a concrete environment and path. -/
theorem playAudio_calls_backing_once_witness :
    envAll.fsExists "/tmp/sample.wav" = true ∧
    envAll.dlopenOk OSPortPath = true ∧
    envAll.dlsymOk OSPortPath "av_playAudio" = true ∧
    callArgs (playAudio envAll "/tmp/sample.wav") = ["/tmp/sample.wav"] :=
  ⟨rfl, rfl, rfl, playAudio_calls_backing_once envAll "/tmp/sample.wav" rfl rfl rfl⟩

/-- Claim C3: when the input path does not exist, the invocation emits the
`File does not exist` line (after the attempt line) and performs no loader
interaction at all: no `dlopen`, no `dlsym`, no backing call. -/
theorem playAudio_missing_file (env : Env) (p : String)
    (hfs : env.fsExists p = false) :
    outLines (playAudio env p) =
      ["Attempting to play: " ++ p, "File does not exist"] ∧
    dlopenArgs (playAudio env p) = [] ∧
    dlsymArgs (playAudio env p) = [] ∧
    callArgs (playAudio env p) = [] := by
  refine ⟨?_, ?_, ?_, ?_⟩ <;>
    simp [playAudio, outLines, dlopenArgs, dlsymArgs, callArgs, hfs]

/-- Witness for C3 at a concrete environment and path. -/
theorem playAudio_missing_file_witness :
    envNoFile.fsExists "/nope.wav" = false ∧
    (outLines (playAudio envNoFile "/nope.wav") =
      ["Attempting to play: " ++ "/nope.wav", "File does not exist"] ∧
    dlopenArgs (playAudio envNoFile "/nope.wav") = [] ∧
    dlsymArgs (playAudio envNoFile "/nope.wav") = [] ∧
    callArgs (playAudio envNoFile "/nope.wav") = []) :=
  ⟨rfl, playAudio_missing_file envNoFile "/nope.wav" rfl⟩

/-- Claim C4: when the path exists but the library handle cannot be
acquired, exactly one `Unable to load dylib: <loader-message>` line is
emitted, carrying the loader error description, and no symbol resolution
is attempted. -/
theorem playAudio_load_failure (env : Env) (p : String)
    (hfs : env.fsExists p = true) (hop : env.dlopenOk OSPortPath = false) :
    (outLines (playAudio env p)).count
      ("Unable to load dylib: " ++ env.dlerrOpen) = 1 ∧
    dlsymArgs (playAudio env p) = [] := by
  have h1 : ("Attempting to play: " ++ p) ≠
      ("Unable to load dylib: " ++ env.dlerrOpen) :=
    string_ne_of_head _ _ (by
      rw [head_append "Attempting to play: " p 'A' rfl,
        head_append "Unable to load dylib: " env.dlerrOpen 'U' rfl]
      decide)
  have h2 : ("File exists" : String) ≠
      ("Unable to load dylib: " ++ env.dlerrOpen) :=
    string_ne_of_head _ _ (by
      rw [head_append "Unable to load dylib: " env.dlerrOpen 'U' rfl]
      decide)
  refine ⟨?_, ?_⟩ <;>
    simp [playAudio, outLines, dlsymArgs, hfs, hop, List.count_cons, h1, h2]

/-- Witness for C4 at a concrete environment and path. -/
theorem playAudio_load_failure_witness :
    envNoLib.fsExists "/tmp/sample.wav" = true ∧
    envNoLib.dlopenOk OSPortPath = false ∧
    ((outLines (playAudio envNoLib "/tmp/sample.wav")).count
      ("Unable to load dylib: " ++ envNoLib.dlerrOpen) = 1 ∧
    dlsymArgs (playAudio envNoLib "/tmp/sample.wav") = []) :=
  ⟨rfl, rfl, playAudio_load_failure envNoLib "/tmp/sample.wav" rfl rfl⟩

/-- Claim C5: for every input path and every oracle outcome, exactly one
`Attempting to play: <path>` line is emitted, and it is the first line of
output of the invocation. -/
theorem playAudio_attempt_line (env : Env) (p : String) :
    (outLines (playAudio env p)).head? =
      some ("Attempting to play: " ++ p) ∧
    (outLines (playAudio env p)).count ("Attempting to play: " ++ p) = 1 := by
  have hA : ("Attempting to play: " ++ p).data.head? = some 'A' :=
    head_append "Attempting to play: " p 'A' rfl
  have h1 : ("File exists" : String) ≠ "Attempting to play: " ++ p :=
    string_ne_of_head _ _ (by rw [hA]; decide)
  have h2 : ("File does not exist" : String) ≠ "Attempting to play: " ++ p :=
    string_ne_of_head _ _ (by rw [hA]; decide)
  have h3 : ("Unable to load dylib: " ++ env.dlerrOpen) ≠
      "Attempting to play: " ++ p :=
    string_ne_of_head _ _ (by
      rw [hA, head_append "Unable to load dylib: " env.dlerrOpen 'U' rfl]
      decide)
  have h4 : ("Unable to find symbol: " ++ env.dlerrSym) ≠
      "Attempting to play: " ++ p :=
    string_ne_of_head _ _ (by
      rw [hA, head_append "Unable to find symbol: " env.dlerrSym 'U' rfl]
      decide)
  cases hfs : env.fsExists p <;> cases hop : env.dlopenOk OSPortPath <;>
    cases hsym : env.dlsymOk OSPortPath "av_playAudio" <;>
      refine ⟨?_, ?_⟩ <;>
        simp [playAudio, outLines, hfs, hop, hsym, List.count_cons,
          h1, h2, h3, h4]

/-- Claim C6: the spec states the function never throws, aborts nor
propagates an exception across its boundary; the source violates this.
The existence check at line 10 is the throwing overload of
`std::filesystem::exists`, so on a filesystem outcome where the underlying
status query fails (for example a permission error on a path prefix) a
`std::filesystem::filesystem_error` is raised after the attempt line, and
`playAudio` has no handler: the exception escapes instead of a normal
return.  Evaluated at such an outcome, the invocation emits only the
attempt line and an exception is thrown across the boundary. -/
theorem playAudio_throws_on_fs_error :
    playAudioEx envFsError "/locked/sample.wav" =
      { events := [Event.out ("Attempting to play: " ++ "/locked/sample.wav")]
        thrown := some (CppException.filesystemError "permission denied") } :=
  rfl

/-- Claim C7: when the input path exists, the invocation opens exactly the
backing library at its known absolute path with lazy binding, and, when
that acquisition succeeds, resolves exactly the symbol `av_playAudio`
from it. -/
theorem playAudio_opens_lazy_resolves (env : Env) (p : String)
    (hfs : env.fsExists p = true) :
    dlopenArgs (playAudio env p) = [(OSPortPath, BindingMode.lazy)] ∧
    (env.dlopenOk OSPortPath = true →
      dlsymArgs (playAudio env p) = ["av_playAudio"]) := by
  constructor
  · cases hop : env.dlopenOk OSPortPath <;>
      cases hsym : env.dlsymOk OSPortPath "av_playAudio" <;>
        simp [playAudio, dlopenArgs, hfs, hop, hsym]
  · intro hop
    cases hsym : env.dlsymOk OSPortPath "av_playAudio" <;>
      simp [playAudio, dlsymArgs, hfs, hop, hsym]

/-- Witness for C7 at a concrete environment and path. -/
theorem playAudio_opens_lazy_resolves_witness :
    envAll.fsExists "/tmp/sample.wav" = true ∧
    (dlopenArgs (playAudio envAll "/tmp/sample.wav") =
      [(OSPortPath, BindingMode.lazy)] ∧
    (envAll.dlopenOk OSPortPath = true →
      dlsymArgs (playAudio envAll "/tmp/sample.wav") = ["av_playAudio"])) :=
  ⟨rfl, playAudio_opens_lazy_resolves envAll "/tmp/sample.wav" rfl⟩

/-- Claim C8: in every invocation, no call through the resolved function
pointer occurs after the handle has been released: every `callE` event
precedes every `dlcloseE` event in the trace. -/
theorem playAudio_call_precedes_release (env : Env) (p : String) :
    callsBeforeRelease (playAudio env p) = true := by
  cases hfs : env.fsExists p <;> cases hop : env.dlopenOk OSPortPath <;>
    cases hsym : env.dlsymOk OSPortPath "av_playAudio" <;>
      simp [playAudio, callsBeforeRelease, noCall, hfs, hop, hsym]

/-- Claim C9: the library path handed to the loader is the fixed constant
`OSPortPath`, independent of the oracle and of the input path: any
argument of any `dlopen` call of any invocation names that constant, so
the input path never influences which library is opened. -/
theorem playAudio_library_path_constant (env : Env) (p : String)
    (pm : String × BindingMode) (h : pm ∈ dlopenArgs (playAudio env p)) :
    pm.1 = OSPortPath := by
  cases hfs : env.fsExists p <;> cases hop : env.dlopenOk OSPortPath <;>
    cases hsym : env.dlsymOk OSPortPath "av_playAudio" <;>
      simp [playAudio, dlopenArgs, hfs, hop, hsym] at h <;> simp [h]

/-- Witness for C9 at a concrete environment and path. -/
theorem playAudio_library_path_constant_witness :
    (OSPortPath, BindingMode.lazy) ∈
      dlopenArgs (playAudio envAll "/tmp/sample.wav") ∧
    (OSPortPath, BindingMode.lazy).1 = OSPortPath :=
  ⟨by simp [playAudio, dlopenArgs, envAll],
   playAudio_library_path_constant envAll "/tmp/sample.wav"
     (OSPortPath, BindingMode.lazy)
     (by simp [playAudio, dlopenArgs, envAll])⟩

/-- Claim C10: the raw entry point has no null test: a null input (`none`)
has no defined behaviour, and every non-null input is handled exactly as
the dereferencing body `playAudio` handles it, so a non-null
null-terminated path-string is a precondition of the interface. -/
theorem playAudio_null_input_undefined (env : Env) :
    playAudioRaw env none = none ∧
    ∀ p, playAudioRaw env (some p) = some (playAudio env p) :=
  ⟨rfl, fun _ => rfl⟩
